import Mathlib

/-!
# SAMSIM server: shallow embedding and verification

A shallow embedding of `src/server/samsim_server.py` (the SAMSIM bridge
server between DCS World and browser clients), together with proofs of the
spec's testable properties.

Modelling conventions:
* JSON values are a nested inductive `Json`; numbers are modelled as `Int`
  (the integer/float distinction of Python numerals does not matter to any
  property proved here, and `0 == 0.0` in Python).
* Python dicts produced by `json.loads` are modelled as association lists
  with string keys; such dicts always have unique keys, so universally
  quantified statements carry `Nodup` hypotheses on keys where duplicates
  would make the list ambiguous as a dict.
* Exceptions are modelled explicitly: a code path that raises and is caught
  returns the state as it stands at the raise point (Python releases the
  lock and the outer handler logs and continues).
* Network effects (UDP `sendto`, websocket `send`) are abstracted as
  outcome parameters (`Except String Unit` / failure predicates); the pure
  part of each handler is embedded faithfully.
-/

/-- JSON values as parsed by Python's `json.loads` / emitted by `json.dumps`.
Object fields model a Python dict: keys unique, listed in insertion order. -/
inductive Json where
  | null : Json
  | bool (b : Bool) : Json
  | num (n : Int) : Json
  | str (s : String) : Json
  | arr (elems : List Json) : Json
  | obj (fields : List (String × Json)) : Json

/-- First-match lookup in an object's field list; on the unique-key lists
produced by `json.loads` this is exactly Python dict lookup. -/
def lookupField : List (String × Json) → String → Option Json
  | [], _ => none
  | (k, v) :: rest, key => if k = key then some v else lookupField rest key

/-- Python `d.get(key, default)` on a dict. -/
def getField (fields : List (String × Json)) (key : String) (dflt : Json) : Json :=
  (lookupField fields key).getD dflt

/-- Python `x == "s"` where `x` is an arbitrary JSON value: only the equal
string compares equal. -/
def Json.isStr : Json → String → Bool
  | Json.str t, s => t = s
  | _, _ => false

/-- Whether a JSON value is an object (a Python dict, on which `.get` and
`.items()` succeed rather than raising `AttributeError`). -/
def Json.isObj : Json → Bool
  | Json.obj _ => true
  | _ => false

/-- String escaping for serialization (quote and backslash; further escapes
of Python's `json.dumps` are irrelevant to the identifiers and payloads
compared here). -/
def escapeString (s : String) : String :=
  s.foldl (fun acc c =>
    if c = '\\' then acc ++ "\\\\"
    else if c = '"' then acc ++ "\\\""
    else acc.push c) ""

mutual

/-- `json.dumps` with Python's default separators (`", "` and `": "`),
object keys in insertion order. -/
def Json.dumps : Json → String
  | Json.null => "null"
  | Json.bool true => "true"
  | Json.bool false => "false"
  | Json.num n => toString n
  | Json.str s => "\"" ++ escapeString s ++ "\""
  | Json.arr xs => "[" ++ Json.dumpsList xs ++ "]"
  | Json.obj fs => "\x7b" ++ Json.dumpsFields fs ++ "\x7d"

def Json.dumpsList : List Json → String
  | [] => ""
  | [x] => Json.dumps x
  | x :: y :: rest => Json.dumps x ++ ", " ++ Json.dumpsList (y :: rest)

def Json.dumpsFields : List (String × Json) → String
  | [] => ""
  | [(k, v)] => "\"" ++ escapeString k ++ "\": " ++ Json.dumps v
  | (k, v) :: p :: rest =>
      "\"" ++ escapeString k ++ "\": " ++ Json.dumps v ++ ", " ++
        Json.dumpsFields (p :: rest)

end

/-- `SAMSiteState`: state of a single SA-2 site. Fields other than the id
hold whatever JSON value the last update supplied (Python is dynamically
typed); the defaults are the dataclass defaults. -/
structure SAMSiteState where
  site_id : String
  system_state : Json := Json.num 0
  radar_mode : Json := Json.num 0
  antenna_az : Json := Json.num 0
  antenna_el : Json := Json.num 5
  targets : Json := Json.arr []
  tracked_target : Json := Json.null
  track_quality : Json := Json.num 0
  missiles_ready : Json := Json.num 6
  missiles_in_flight : Json := Json.num 0
  engagement_auth : Json := Json.bool false
  auto_engage : Json := Json.bool false

/-- `SAMSiteState(site_id=sid)`: a fresh record with dataclass defaults. -/
def SAMSiteState.init (sid : String) : SAMSiteState := { site_id := sid }

/-- The mutable server state guarded by `state_lock`: connection flag,
mission clock, pause flag, per-site records (a dict in insertion order) and
the world object list. -/
structure ServerState where
  dcs_connected : Bool
  mission_time : Json
  paused : Json
  sites : List (String × SAMSiteState)
  world_objects : Json

/-- The state as `SAMSIMServer.__init__` leaves it. -/
def initialState : ServerState :=
  { dcs_connected := false
    mission_time := Json.num 0
    paused := Json.bool false
    sites := []
    world_objects := Json.arr [] }

/-- First-match lookup in the sites dict. -/
def lookupSite : List (String × SAMSiteState) → String → Option SAMSiteState
  | [], _ => none
  | (k, v) :: rest, sid => if k = sid then some v else lookupSite rest sid

/-- `self.sites[site_id] = s` for a key already present: replace in place,
preserving insertion order. -/
def setSite : List (String × SAMSiteState) → String → SAMSiteState →
    List (String × SAMSiteState)
  | [], _, _ => []
  | (k, v) :: rest, sid, s =>
      if k = sid then (k, s) :: rest else (k, v) :: setSite rest sid s

/-- The per-field assignments of the `status` branch (lines 193–203): every
one of the eleven fields is assigned `site_data.get(key, default)`; only
`site_id` is left as it was. -/
def applySiteData (site : SAMSiteState) (sd : List (String × Json)) : SAMSiteState :=
  { site with
    system_state := getField sd "systemState" (Json.num 0)
    radar_mode := getField sd "radarMode" (Json.num 0)
    antenna_az := getField sd "antennaAz" (Json.num 0)
    antenna_el := getField sd "antennaEl" (Json.num 5)
    targets := getField sd "targets" (Json.arr [])
    tracked_target := getField sd "tracked" Json.null
    track_quality := getField sd "trackQuality" (Json.num 0)
    missiles_ready := getField sd "missilesReady" (Json.num 6)
    missiles_in_flight := getField sd "missilesInFlight" (Json.num 0)
    engagement_auth := getField sd "engAuth" (Json.bool false)
    auto_engage := getField sd "autoEng" (Json.bool false) }

/-- Lines 189–190: `if site_id not in self.sites: self.sites[site_id] =
SAMSiteState(site_id=site_id)` — create the record if absent (appended at
the end, as dict insertion does). -/
def ensureSite (sites : List (String × SAMSiteState)) (sid : String) :
    List (String × SAMSiteState) :=
  if (lookupSite sites sid).isSome then sites
  else sites ++ [(sid, SAMSiteState.init sid)]

/-- The `for site_id, site_data in sites_data.items()` loop: create the
record if absent, then overwrite all its fields. If a site's payload is not
a dict, `site_data.get` raises `AttributeError` after the record was
created; the exception aborts the loop and is caught by the outer handler,
so the sites updated so far (and the fresh default record) remain. -/
def applySitesLoop (sites : List (String × SAMSiteState)) :
    List (String × Json) → List (String × SAMSiteState)
  | [] => sites
  | (sid, sd) :: rest =>
      let sites1 := ensureSite sites sid
      match sd with
      | Json.obj sfields =>
          let site := (lookupSite sites1 sid).getD (SAMSiteState.init sid)
          applySitesLoop (setSite sites1 sid (applySiteData site sfields)) rest
      | _ => sites1

/-- `_process_dcs_data`: decode an inbound datagram and apply it to the
state. `none` models a payload that fails UTF-8/JSON decoding (logged and
discarded). A non-dict message makes `message.get` raise before the lock is
taken (caught, state unchanged). Dispatch on the `type` discriminator:
`init`/`shutdown` flip the connection flag, `status` applies a full update,
everything else (including `response`) is ignored. All exceptions are
caught at the bottom, so the call always returns to the receive loop. -/
def process_dcs_data (st : ServerState) (data : Option Json) : ServerState :=
  match data with
  | none => st
  | some msg =>
    match msg with
    | Json.obj mfields =>
      let msgType := getField mfields "type" (Json.str "")
      if msgType.isStr "init" then { st with dcs_connected := true }
      else if msgType.isStr "shutdown" then { st with dcs_connected := false }
      else if msgType.isStr "status" then
        let st1 := { st with
          dcs_connected := true
          mission_time := getField mfields "time" (Json.num 0)
          paused := getField mfields "paused" (Json.bool false)
          world_objects := getField mfields "worldObjects" (Json.arr []) }
        match getField mfields "sites" (Json.obj []) with
        | Json.obj sitesData => { st1 with sites := applySitesLoop st1.sites sitesData }
        | _ => st1
      else st
    | _ => st

/-- The per-site projection used by both `_send_state_to_client` and
`_broadcast_loop`: the site id plus all eleven fields. -/
def siteJson (site : SAMSiteState) : Json :=
  Json.obj
    [("siteId", Json.str site.site_id),
     ("systemState", site.system_state),
     ("radarMode", site.radar_mode),
     ("antennaAz", site.antenna_az),
     ("antennaEl", site.antenna_el),
     ("targets", site.targets),
     ("tracked", site.tracked_target),
     ("trackQuality", site.track_quality),
     ("missilesReady", site.missiles_ready),
     ("missilesInFlight", site.missiles_in_flight),
     ("engAuth", site.engagement_auth),
     ("autoEng", site.auto_engage)]

/-- The snapshot dict built under the lock by `_send_state_to_client`
(`msgType = "state"`) and `_broadcast_loop` (`msgType = "update"`). -/
def stateJson (msgType : String) (st : ServerState) : Json :=
  Json.obj
    [("type", Json.str msgType),
     ("dcsConnected", Json.bool st.dcs_connected),
     ("missionTime", st.mission_time),
     ("paused", st.paused),
     ("sites", Json.obj (st.sites.map (fun p => (p.1, siteJson p.2)))),
     ("worldObjects", st.world_objects)]

/-- `_api_status`: the reduced projection returned by `GET /api/status`. -/
def api_status (st : ServerState) : Json :=
  Json.obj
    [("dcsConnected", Json.bool st.dcs_connected),
     ("missionTime", st.mission_time),
     ("paused", st.paused),
     ("sites", Json.arr (st.sites.map (fun p => Json.str p.1)))]

/-- `send_to_dcs`: serialize the command and `sendto` one datagram. The
whole body is wrapped in `try/except Exception`: a raising send is logged
and swallowed, so the call ALWAYS returns normally to its caller. The
argument abstracts the outcome of the underlying `socket.sendto`. -/
def send_to_dcs (sendtoOutcome : Except String Unit) : Except String Unit :=
  match sendtoOutcome with
  | Except.ok _ => Except.ok ()
  | Except.error _ => Except.ok ()

/-- `_api_command`: parse the POST body (`body = Except.error e` models
`await request.json()` raising with message `e`), forward via
`send_to_dcs`, and answer. The `except` branch produces
`{"success": false, "error": str(e)}`; it is reachable only from a raise
inside the `try`. -/
def api_command (body : Except String Json) (sendtoOutcome : Except String Unit) : Json :=
  match body with
  | Except.error e =>
      Json.obj [("success", Json.bool false), ("error", Json.str e)]
  | Except.ok _data =>
      match send_to_dcs sendtoOutcome with
      | Except.ok _ => Json.obj [("success", Json.bool true)]
      | Except.error e =>
          Json.obj [("success", Json.bool false), ("error", Json.str e)]

/-- Result of handling one websocket client message: the state afterwards,
the commands forwarded to DCS (in order) and the replies sent back to the
requesting client. -/
structure WsResult where
  state : ServerState
  forwarded : List Json
  replies : List Json

/-- `_handle_ws_message`. `none` models a message that fails JSON decoding.
`command` forwards and acks (if the command payload is not a dict,
`command.get` raises after the forward, so the ack is never sent);
`init_site` forwards a constructed command and pre-creates the local
record; `get_state` replies with a full snapshot; anything else is ignored.
Site dict keys are strings, so the local pre-creation is modelled for a
string `siteId` (a non-string id would create an exotic non-string dict
key, which never collides with the string keys modelled here). -/
def handle_ws_message (st : ServerState) (raw : Option Json) : WsResult :=
  match raw with
  | none => ⟨st, [], []⟩
  | some data =>
    match data with
    | Json.obj dfields =>
      let cmdType := getField dfields "type" (Json.str "")
      if cmdType.isStr "command" then
        let command := getField dfields "command" (Json.obj [])
        match command with
        | Json.obj cfields =>
            ⟨st, [command],
              [Json.obj [("type", Json.str "ack"),
                         ("command", getField cfields "cmd" Json.null)]]⟩
        | _ => ⟨st, [command], []⟩
      else if cmdType.isStr "init_site" then
        let siteId := getField dfields "siteId" Json.null
        let groupName := getField dfields "groupName" Json.null
        let command := Json.obj
          [("cmd", Json.str "init_site"),
           ("siteId", siteId),
           ("params", Json.obj [("groupName", groupName)])]
        let st1 :=
          match siteId with
          | Json.str sid =>
              if (lookupSite st.sites sid).isSome then st
              else { st with sites := st.sites ++ [(sid, SAMSiteState.init sid)] }
          | _ => st
        ⟨st1, [command], []⟩
      else if cmdType.isStr "get_state" then
        ⟨st, [], [stateJson "state" st]⟩
      else ⟨st, [], []⟩
    | _ => ⟨st, [], []⟩

/-- Result of one iteration of `_broadcast_loop`'s body: the serialized
snapshot if one was taken, the send attempts `(client, bytes)` in
iteration order, and the registry after pruning. -/
structure TickResult where
  payload : Option String
  sends : List (String × String)
  registry : List String

/-- One broadcast tick. `clients` is the registry (`ws_clients`, in
iteration order); `sendFails c = true` models `await c.send(message)`
raising. If the registry is empty nothing is snapshotted, serialized or
sent; otherwise one snapshot is serialized once and that identical string
is pushed to every client, each failure caught individually and the failed
clients removed together after the iteration. -/
def broadcast_tick (st : ServerState) (clients : List String)
    (sendFails : String → Bool) : TickResult :=
  if clients.isEmpty then ⟨none, [], clients⟩
  else
    let message := Json.dumps (stateJson "update" st)
    ⟨some message,
     clients.map (fun c => (c, message)),
     clients.filter (fun c => !sendFails c)⟩

/-- One externally triggered operation on the shared state, as seen by the
state store: an inbound DCS datagram, a websocket client message, or one of
the two HTTP endpoints (both read-only with respect to the state). -/
inductive ServerOp where
  | dcsDatagram (data : Option Json)
  | wsMessage (data : Option Json)
  | apiStatusReq
  | apiCommandReq (body : Except String Json) (sendtoOutcome : Except String Unit)

/-- Effect of one operation on the shared state. -/
def applyOp (st : ServerState) : ServerOp → ServerState
  | ServerOp.dcsDatagram d => process_dcs_data st d
  | ServerOp.wsMessage d => (handle_ws_message st d).state
  | ServerOp.apiStatusReq => st
  | ServerOp.apiCommandReq _ _ => st

/-! ## Basic lemmas about the embedded dictionaries -/

theorem Json.isStr_eq {j : Json} {s : String} (h : j.isStr s = true) :
    j = Json.str s := by
  cases j <;> simp [Json.isStr] at h ⊢
  exact h

theorem lookupSite_append_of_isSome {xs : List (String × SAMSiteState)}
    {sid : String} (ys : List (String × SAMSiteState))
    (h : (lookupSite xs sid).isSome) :
    lookupSite (xs ++ ys) sid = lookupSite xs sid := by
  induction xs with
  | nil => simp [lookupSite] at h
  | cons p rest ih =>
      obtain ⟨k, v⟩ := p
      by_cases hk : k = sid
      · simp [lookupSite, hk]
      · simp only [lookupSite, if_neg hk] at h ⊢
        exact ih h

theorem lookupSite_append_of_none {xs : List (String × SAMSiteState)}
    {sid : String} (ys : List (String × SAMSiteState))
    (h : lookupSite xs sid = none) :
    lookupSite (xs ++ ys) sid = lookupSite ys sid := by
  induction xs with
  | nil => simp [lookupSite]
  | cons p rest ih =>
      obtain ⟨k, v⟩ := p
      by_cases hk : k = sid
      · simp [lookupSite, hk] at h
      · simp only [lookupSite, if_neg hk] at h ⊢
        exact ih h

theorem lookupSite_ensure_isSome (sites : List (String × SAMSiteState))
    (sid : String) : (lookupSite (ensureSite sites sid) sid).isSome := by
  unfold ensureSite
  by_cases h : (lookupSite sites sid).isSome
  · simp [h]
  · simp only [h, if_false, Bool.false_eq_true]
    rw [lookupSite_append_of_none _ (Option.not_isSome_iff_eq_none.mp h)]
    simp [lookupSite]

theorem lookupSite_ensure_ne {k sid : String} (sites : List (String × SAMSiteState))
    (h : k ≠ sid) : lookupSite (ensureSite sites sid) k = lookupSite sites k := by
  unfold ensureSite
  by_cases hs : (lookupSite sites sid).isSome
  · simp [hs]
  · simp only [hs, if_false, Bool.false_eq_true]
    cases hk : lookupSite sites k with
    | some v => rw [lookupSite_append_of_isSome _ (by simp [hk]), hk]
    | none =>
        rw [lookupSite_append_of_none _ hk]
        simp [lookupSite, hk, Ne.symm h]

theorem ensure_of_isSome {sites : List (String × SAMSiteState)} {sid : String}
    (h : (lookupSite sites sid).isSome) : ensureSite sites sid = sites := by
  simp [ensureSite, h]

theorem lookupSite_ensure_of_none {sites : List (String × SAMSiteState)} {sid : String}
    (h : lookupSite sites sid = none) :
    lookupSite (ensureSite sites sid) sid = some (SAMSiteState.init sid) := by
  unfold ensureSite
  simp only [h, Option.isSome_none, Bool.false_eq_true, if_false]
  rw [lookupSite_append_of_none _ h]
  simp [lookupSite]

theorem lookupSite_setSite_self {sites : List (String × SAMSiteState)} {sid : String}
    (s : SAMSiteState) (h : (lookupSite sites sid).isSome) :
    lookupSite (setSite sites sid s) sid = some s := by
  induction sites with
  | nil => simp [lookupSite] at h
  | cons p rest ih =>
      obtain ⟨k, v⟩ := p
      by_cases hk : k = sid
      · simp [setSite, lookupSite, hk]
      · simp only [lookupSite, setSite, if_neg hk] at h ⊢
        exact ih h

theorem lookupSite_setSite_ne {k sid : String} (sites : List (String × SAMSiteState))
    (s : SAMSiteState) (h : k ≠ sid) :
    lookupSite (setSite sites sid s) k = lookupSite sites k := by
  induction sites with
  | nil => simp [setSite]
  | cons p rest ih =>
      obtain ⟨kk, v⟩ := p
      by_cases hkk : kk = sid
      · subst hkk
        have hne : ¬kk = k := fun hh => h hh.symm
        simp [setSite, lookupSite, hne]
      · simp only [setSite, if_neg hkk, lookupSite]
        by_cases hk2 : kk = k
        · simp [hk2]
        · simp [hk2, ih]

theorem lookupSite_setSite_isSome {sites : List (String × SAMSiteState)}
    {k sid : String} (s : SAMSiteState) (h : (lookupSite sites k).isSome) :
    (lookupSite (setSite sites sid s) k).isSome := by
  by_cases hk : k = sid
  · subst hk
    rw [lookupSite_setSite_self s h]
    rfl
  · rw [lookupSite_setSite_ne sites s hk]
    exact h

theorem lookupSite_ensure_isSome_mono {sites : List (String × SAMSiteState)}
    {k : String} (sid : String) (h : (lookupSite sites k).isSome) :
    (lookupSite (ensureSite sites sid) k).isSome := by
  by_cases hk : k = sid
  · subst hk
    exact lookupSite_ensure_isSome sites k
  · rw [lookupSite_ensure_ne sites hk]
    exact h

theorem mem_keys_iff_isSome (sites : List (String × SAMSiteState)) (sid : String) :
    sid ∈ sites.map Prod.fst ↔ (lookupSite sites sid).isSome := by
  induction sites with
  | nil => simp [lookupSite]
  | cons p rest ih =>
      obtain ⟨k, v⟩ := p
      by_cases hk : k = sid
      · subst hk
        simp [lookupSite]
      · have hk2 : ¬sid = k := fun hh => hk hh.symm
        simp [lookupSite, hk, hk2, ih]

theorem lookupField_map_siteJson (sites : List (String × SAMSiteState)) (sid : String) :
    lookupField (sites.map (fun p => (p.1, siteJson p.2))) sid =
      (lookupSite sites sid).map siteJson := by
  induction sites with
  | nil => rfl
  | cons p rest ih =>
      obtain ⟨k, v⟩ := p
      by_cases hk : k = sid <;> simp [lookupField, lookupSite, hk, ih]

theorem applySitesLoop_lookup_of_not_mem {k : String} (data : List (String × Json)) :
    ∀ sites, k ∉ data.map Prod.fst →
      lookupSite (applySitesLoop sites data) k = lookupSite sites k := by
  induction data with
  | nil => intro sites _; rfl
  | cons p rest ih =>
      obtain ⟨sid, sd⟩ := p
      intro sites h
      simp only [List.map_cons, List.mem_cons, not_or] at h
      obtain ⟨h1, h2⟩ := h
      cases sd with
      | obj sfields =>
          simp only [applySitesLoop]
          rw [ih _ h2, lookupSite_setSite_ne _ _ h1, lookupSite_ensure_ne _ h1]
      | null => simp only [applySitesLoop]; exact lookupSite_ensure_ne _ h1
      | bool b => simp only [applySitesLoop]; exact lookupSite_ensure_ne _ h1
      | num n => simp only [applySitesLoop]; exact lookupSite_ensure_ne _ h1
      | str s => simp only [applySitesLoop]; exact lookupSite_ensure_ne _ h1
      | arr xs => simp only [applySitesLoop]; exact lookupSite_ensure_ne _ h1

theorem applySitesLoop_isSome_mono {k : String} (data : List (String × Json)) :
    ∀ sites, (lookupSite sites k).isSome →
      (lookupSite (applySitesLoop sites data) k).isSome := by
  induction data with
  | nil => intro sites h; exact h
  | cons p rest ih =>
      obtain ⟨sid, sd⟩ := p
      intro sites h
      have h1 : (lookupSite (ensureSite sites sid) k).isSome :=
        lookupSite_ensure_isSome_mono sid h
      cases sd with
      | obj sfields =>
          simp only [applySitesLoop]
          exact ih _ (lookupSite_setSite_isSome _ h1)
      | null => exact h1
      | bool b => exact h1
      | num n => exact h1
      | str s => exact h1
      | arr xs => exact h1

theorem applySitesLoop_lookup_mem {sid : String} {sfields : List (String × Json)}
    (data : List (String × Json)) :
    ∀ sites, (data.map Prod.fst).Nodup →
      (∀ p ∈ data, p.2.isObj = true) →
      (sid, Json.obj sfields) ∈ data →
      ∃ s0, lookupSite (applySitesLoop sites data) sid =
        some (applySiteData s0 sfields) := by
  induction data with
  | nil => intro sites _ _ hmem; cases hmem
  | cons p rest ih =>
      obtain ⟨k, sd⟩ := p
      intro sites hnodup hobj hmem
      have hkeys : k ∉ rest.map Prod.fst ∧ (rest.map Prod.fst).Nodup := by
        simpa [List.nodup_cons] using hnodup
      by_cases hk : k = sid
      · subst hk
        have hhd : sd = Json.obj sfields := by
          rcases List.mem_cons.mp hmem with h | h
          · exact (Prod.mk.injEq _ _ _ _ ▸ h).2.symm
          · exact absurd (List.mem_map_of_mem Prod.fst h) hkeys.1
        subst hhd
        simp only [applySitesLoop]
        rw [applySitesLoop_lookup_of_not_mem rest _ hkeys.1]
        exact ⟨_, lookupSite_setSite_self _ (lookupSite_ensure_isSome _ _)⟩
      · have hmem' : (sid, Json.obj sfields) ∈ rest := by
          rcases List.mem_cons.mp hmem with h | h
          · exact absurd ((Prod.mk.injEq _ _ _ _ ▸ h).1.symm) hk
          · exact h
        have hobj' : ∀ p ∈ rest, p.2.isObj = true :=
          fun p hp => hobj p (List.mem_cons_of_mem _ hp)
        have hsd : sd.isObj = true := hobj (k, sd) (List.mem_cons_self _ _)
        obtain ⟨l, rfl⟩ : ∃ l, sd = Json.obj l := by
          cases sd <;> simp [Json.isObj] at hsd ⊢
        simp only [applySitesLoop]
        exact ih _ hkeys.2 hobj' hmem'

/-! ## Branch equations for `_process_dcs_data` -/

theorem process_init_eq {mfields : List (String × Json)} (st : ServerState)
    (hty : (getField mfields "type" (Json.str "")).isStr "init" = true) :
    process_dcs_data st (some (Json.obj mfields)) = { st with dcs_connected := true } := by
  have h := Json.isStr_eq hty
  have c0 : (Json.str "init").isStr "init" = true := by decide
  simp [process_dcs_data, h, c0]

theorem process_shutdown_eq {mfields : List (String × Json)} (st : ServerState)
    (hty : (getField mfields "type" (Json.str "")).isStr "shutdown" = true) :
    process_dcs_data st (some (Json.obj mfields)) = { st with dcs_connected := false } := by
  have h := Json.isStr_eq hty
  have c0 : (Json.str "shutdown").isStr "shutdown" = true := by decide
  have c1 : (Json.str "shutdown").isStr "init" = false := by decide
  simp [process_dcs_data, h, c0, c1]

theorem process_status_eq {mfields sitesData : List (String × Json)} (st : ServerState)
    (hty : (getField mfields "type" (Json.str "")).isStr "status" = true)
    (hsites : getField mfields "sites" (Json.obj []) = Json.obj sitesData) :
    process_dcs_data st (some (Json.obj mfields)) =
      { st with
        dcs_connected := true
        mission_time := getField mfields "time" (Json.num 0)
        paused := getField mfields "paused" (Json.bool false)
        world_objects := getField mfields "worldObjects" (Json.arr [])
        sites := applySitesLoop st.sites sitesData } := by
  have h := Json.isStr_eq hty
  have c0 : (Json.str "status").isStr "status" = true := by decide
  have c1 : (Json.str "status").isStr "init" = false := by decide
  have c2 : (Json.str "status").isStr "shutdown" = false := by decide
  simp [process_dcs_data, h, c0, c1, c2, hsites]

/-! ## Claims -/

/-- C8: starting from the initial state, processing the inbound datagram
`{"type":"status","time":42,"paused":false,"sites":{"S1":{"systemState":2,"radarMode":1}}}`
and then evaluating the status query endpoint returns exactly
`{"dcsConnected":true,"missionTime":42,"paused":false,"sites":["S1"]}`:
a `status` message sets the connection flag to true and `_api_status`
projects only the connection flag, mission clock, pause flag and the list
of known site identifiers. -/
theorem claim_C8 :
    api_status (process_dcs_data initialState (some (Json.obj
      [("type", Json.str "status"),
       ("time", Json.num 42),
       ("paused", Json.bool false),
       ("sites", Json.obj [("S1", Json.obj
          [("systemState", Json.num 2), ("radarMode", Json.num 1)])])]))) =
    Json.obj
      [("dcsConnected", Json.bool true),
       ("missionTime", Json.num 42),
       ("paused", Json.bool false),
       ("sites", Json.arr [Json.str "S1"])] := rfl

/-- C2: on every broadcast tick, if the registry is non-empty the loop
takes one snapshot, serializes it once (`payload` is that single string)
and the send attempted to each of the N registered subscribers carries that
same, byte-identical serialized payload; if the registry is empty, no
snapshot is taken (`payload = none`) and nothing is sent. -/
theorem claim_C2 (st : ServerState) (clients : List String)
    (sendFails : String → Bool) :
    (broadcast_tick st clients sendFails).payload =
      (if clients.isEmpty then none
       else some (Json.dumps (stateJson "update" st))) ∧
    (broadcast_tick st clients sendFails).sends =
      clients.map (fun c => (c, Json.dumps (stateJson "update" st))) := by
  unfold broadcast_tick
  cases clients <;> simp

/-- C5: on every broadcast tick, a send failure to one subscriber does not
abort the tick — the send attempts cover exactly the registered subscribers
in iteration order regardless of which sends fail (first conjunct) — the
registry iterated is the registry at tick start (structural in the model:
`sends` is a map over `clients`), and afterwards the registry is exactly
the subscribers whose send did not fail, so precisely the failed ones are
removed and all others remain. -/
theorem claim_C5 (st : ServerState) (clients : List String)
    (sendFails : String → Bool) :
    (broadcast_tick st clients sendFails).sends.map Prod.fst = clients ∧
    (broadcast_tick st clients sendFails).registry =
      clients.filter (fun c => !sendFails c) := by
  unfold broadcast_tick
  cases clients <;> simp [List.map_map, Function.comp_def]

/-- C3 counterexample: a failing datagram send (here
`[Errno 101] Network is unreachable` raised by `sendto`) is swallowed
inside `send_to_dcs` (lines 223–224 log and return), so `_api_command`
still answers `{"success": true}` — not the `{"success": false, "error": …}`
the claim requires whenever the forward fails. -/
theorem claim_C3_counterexample :
    api_command (Except.ok (Json.obj [("cmd", Json.str "fire")]))
        (Except.error "[Errno 101] Network is unreachable") =
      Json.obj [("success", Json.bool true)] ∧
    Json.obj [("success", Json.bool true)] ≠
      Json.obj [("success", Json.bool false),
                ("error", Json.str "[Errno 101] Network is unreachable")] := by
  refine ⟨rfl, ?_⟩
  intro h
  simp at h

/-- C3 (amended): `send_to_dcs` catches and logs any failure of the
underlying datagram send and always returns normally, so the command query
endpoint returns `{"success": true}` whenever the request body parses as
JSON — regardless of the send outcome — and returns
`{"success": false, "error": str(e)}` exactly when reading/parsing the
request body raises `e`. -/
theorem claim_C3 (data : Json) (outcome : Except String Unit) (e : String) :
    send_to_dcs outcome = Except.ok () ∧
    api_command (Except.ok data) outcome = Json.obj [("success", Json.bool true)] ∧
    api_command (Except.error e) outcome =
      Json.obj [("success", Json.bool false), ("error", Json.str e)] := by
  refine ⟨?_, ?_, rfl⟩ <;> cases outcome <;> rfl

/-- C4: an inbound datagram that is not valid JSON (`none`), or whose JSON
is not a dict, or whose `type` discriminator is none of `init`, `shutdown`,
`status` (including `response` and unknown types), leaves the entire shared
state unchanged; `process_dcs_data` is total, modelling that the ingestion
loop neither terminates nor propagates an exception on such input. -/
theorem claim_C4 (st : ServerState) (d : Option Json)
    (h : ∀ mfields, d = some (Json.obj mfields) →
      (getField mfields "type" (Json.str "")).isStr "init" = false ∧
      (getField mfields "type" (Json.str "")).isStr "shutdown" = false ∧
      (getField mfields "type" (Json.str "")).isStr "status" = false) :
    process_dcs_data st d = st := by
  cases d with
  | none => rfl
  | some msg =>
      cases msg with
      | obj mfields =>
          obtain ⟨h1, h2, h3⟩ := h mfields rfl
          simp [process_dcs_data, h1, h2, h3]
      | null => rfl
      | bool b => rfl
      | num n => rfl
      | str s => rfl
      | arr xs => rfl

/-- C4 witness: a `response`-typed message and an undecodable datagram both
leave the initial state unchanged. -/
theorem claim_C4_witness :
    process_dcs_data initialState (some (Json.obj
      [("type", Json.str "response"), ("data", Json.num 1)])) = initialState ∧
    process_dcs_data initialState none = initialState := by
  constructor
  · exact claim_C4 initialState _ (by
      intro mfields hm
      injection hm with hm
      injection hm with hm
      subst hm
      exact ⟨rfl, rfl, rfl⟩)
  · exact claim_C4 initialState none (by intro _ hm; cases hm)

/-- C7: for every state, a `shutdown` message followed by an `init` message
(no intervening `status`) yields a state with the connection flag true and
entity mapping, world object list, mission clock and pause flag identical
to before; the `shutdown` and `init` branches mutate only the connection
flag. -/
theorem claim_C7 (st : ServerState) (f1 f2 : List (String × Json))
    (h1 : (getField f1 "type" (Json.str "")).isStr "shutdown" = true)
    (h2 : (getField f2 "type" (Json.str "")).isStr "init" = true) :
    process_dcs_data st (some (Json.obj f1)) = { st with dcs_connected := false } ∧
    process_dcs_data { st with dcs_connected := false } (some (Json.obj f2)) =
      { st with dcs_connected := true } ∧
    process_dcs_data (process_dcs_data st (some (Json.obj f1))) (some (Json.obj f2)) =
      { st with dcs_connected := true } := by
  have e1 := process_shutdown_eq st h1
  have e2 := process_init_eq { st with dcs_connected := false } h2
  exact ⟨e1, e2, by rw [e1]; exact e2⟩

/-- C7 witness: on a state with one site, nonzero clock, paused flag and a
world object, `shutdown` then `init` restores the connection flag and
changes nothing else. -/
theorem claim_C7_witness :
    ((getField [("type", Json.str "shutdown")] "type" (Json.str "")).isStr "shutdown" = true) ∧
    ((getField [("type", Json.str "init")] "type" (Json.str "")).isStr "init" = true) ∧
    process_dcs_data
        (process_dcs_data
          { dcs_connected := true, mission_time := Json.num 7,
            paused := Json.bool true,
            sites := [("S1", SAMSiteState.init "S1")],
            world_objects := Json.arr [Json.num 3] }
          (some (Json.obj [("type", Json.str "shutdown")])))
        (some (Json.obj [("type", Json.str "init")])) =
      { dcs_connected := true, mission_time := Json.num 7,
        paused := Json.bool true,
        sites := [("S1", SAMSiteState.init "S1")],
        world_objects := Json.arr [Json.num 3] } := by
  refine ⟨rfl, rfl, ?_⟩
  exact (claim_C7
    { dcs_connected := true, mission_time := Json.num 7,
      paused := Json.bool true,
      sites := [("S1", SAMSiteState.init "S1")],
      world_objects := Json.arr [Json.num 3] }
    [("type", Json.str "shutdown")] [("type", Json.str "init")] rfl rfl).2.2

/-- C9: for every `init_site` subscriber message carrying a (string)
`siteId`, an `init_site` command for that id is forwarded to the Command
Sink, and afterwards the entity mapping contains a record for that id: if
absent, a fresh all-default record is appended; if already present, the
whole state is left unchanged. -/
theorem claim_C9 (st : ServerState) (dfields : List (String × Json)) (sid : String)
    (hty : (getField dfields "type" (Json.str "")).isStr "init_site" = true)
    (hsid : getField dfields "siteId" Json.null = Json.str sid) :
    (handle_ws_message st (some (Json.obj dfields))).forwarded =
      [Json.obj [("cmd", Json.str "init_site"),
                 ("siteId", Json.str sid),
                 ("params", Json.obj [("groupName", getField dfields "groupName" Json.null)])]] ∧
    (lookupSite (handle_ws_message st (some (Json.obj dfields))).state.sites sid).isSome = true ∧
    (lookupSite st.sites sid = none →
      (handle_ws_message st (some (Json.obj dfields))).state =
        { st with sites := st.sites ++ [(sid, SAMSiteState.init sid)] } ∧
      lookupSite (handle_ws_message st (some (Json.obj dfields))).state.sites sid =
        some (SAMSiteState.init sid)) ∧
    ((lookupSite st.sites sid).isSome = true →
      (handle_ws_message st (some (Json.obj dfields))).state = st) := by
  have h := Json.isStr_eq hty
  have c1 : (Json.str "init_site").isStr "command" = false := by decide
  have c0 : (Json.str "init_site").isStr "init_site" = true := by decide
  have key : handle_ws_message st (some (Json.obj dfields)) =
      ⟨if (lookupSite st.sites sid).isSome then st
        else { st with sites := st.sites ++ [(sid, SAMSiteState.init sid)] },
       [Json.obj [("cmd", Json.str "init_site"), ("siteId", Json.str sid),
                  ("params", Json.obj [("groupName", getField dfields "groupName" Json.null)])]],
       []⟩ := by
    simp [handle_ws_message, h, c1, c0, hsid]
  rw [key]
  by_cases hp : (lookupSite st.sites sid).isSome
  · refine ⟨rfl, ?_, ?_, ?_⟩
    · simp [hp]
    · intro hn
      rw [hn] at hp
      cases hp
    · intro _
      simp [hp]
  · have hn : lookupSite st.sites sid = none := Option.not_isSome_iff_eq_none.mp hp
    refine ⟨rfl, ?_, ?_, ?_⟩
    · simp only [hp, if_false, Bool.false_eq_true]
      rw [lookupSite_append_of_none _ hn]
      simp [lookupSite]
    · intro _
      constructor
      · simp [hp]
      · simp only [hp, if_false, Bool.false_eq_true]
        rw [lookupSite_append_of_none _ hn]
        simp [lookupSite]
    · intro hcontra
      rw [hn] at hcontra
      cases hcontra

/-- C9 witness: `{"type":"init_site","siteId":"S7","groupName":"G1"}` on
the initial (empty) state forwards the constructed command and creates the
default record for `S7`. -/
theorem claim_C9_witness :
    ((getField [("type", Json.str "init_site"), ("siteId", Json.str "S7"),
                ("groupName", Json.str "G1")] "type" (Json.str "")).isStr "init_site" = true) ∧
    (getField [("type", Json.str "init_site"), ("siteId", Json.str "S7"),
               ("groupName", Json.str "G1")] "siteId" Json.null = Json.str "S7") ∧
    (handle_ws_message initialState (some (Json.obj
        [("type", Json.str "init_site"), ("siteId", Json.str "S7"),
         ("groupName", Json.str "G1")]))).forwarded =
      [Json.obj [("cmd", Json.str "init_site"), ("siteId", Json.str "S7"),
                 ("params", Json.obj [("groupName", Json.str "G1")])]] ∧
    (lookupSite (handle_ws_message initialState (some (Json.obj
        [("type", Json.str "init_site"), ("siteId", Json.str "S7"),
         ("groupName", Json.str "G1")]))).state.sites "S7").isSome = true := by
  have h := claim_C9 initialState
    [("type", Json.str "init_site"), ("siteId", Json.str "S7"),
     ("groupName", Json.str "G1")] "S7" rfl rfl
  exact ⟨rfl, rfl, h.1, h.2.1⟩

/-! ## Monotonicity of the entity mapping (no operation deletes a site) -/

theorem process_dcs_isSome_mono {sid : String} (st : ServerState) (d : Option Json)
    (h : (lookupSite st.sites sid).isSome) :
    (lookupSite (process_dcs_data st d).sites sid).isSome := by
  cases d with
  | none => exact h
  | some msg =>
      cases msg with
      | obj mfields =>
          simp only [process_dcs_data]
          split
          · exact h
          · split
            · exact h
            · split
              · split
                · exact applySitesLoop_isSome_mono _ _ h
                · exact h
              · exact h
      | null => exact h
      | bool b => exact h
      | num n => exact h
      | str s => exact h
      | arr xs => exact h

theorem handle_ws_isSome_mono {sid : String} (st : ServerState) (raw : Option Json)
    (h : (lookupSite st.sites sid).isSome) :
    (lookupSite (handle_ws_message st raw).state.sites sid).isSome := by
  cases raw with
  | none => exact h
  | some data =>
      cases data with
      | obj dfields =>
          simp only [handle_ws_message]
          split
          · split
            · exact h
            · exact h
          · split
            · split
              · split
                · exact h
                · rw [lookupSite_append_of_isSome _ h]
                  exact h
              · exact h
            · split
              · exact h
              · exact h
      | null => exact h
      | bool b => exact h
      | num n => exact h
      | str s => exact h
      | arr xs => exact h

theorem applyOp_isSome_mono {sid : String} (st : ServerState) (op : ServerOp)
    (h : (lookupSite st.sites sid).isSome) :
    (lookupSite (applyOp st op).sites sid).isSome := by
  cases op with
  | dcsDatagram d => exact process_dcs_isSome_mono st d h
  | wsMessage d => exact handle_ws_isSome_mono st d h
  | apiStatusReq => exact h
  | apiCommandReq body outcome => exact h

theorem foldl_applyOp_isSome_mono {sid : String} (ops : List ServerOp) :
    ∀ st : ServerState, (lookupSite st.sites sid).isSome →
      (lookupSite (ops.foldl applyOp st).sites sid).isSome := by
  induction ops with
  | nil => intro st h; exact h
  | cons op rest ih =>
      intro st h
      exact ih _ (applyOp_isSome_mono st op h)

/-- C6: no key is ever removed from the entity mapping. For every sequence
of operations (inbound datagrams of any shape — `init`, `shutdown`,
`status`, `response`, unknown or malformed — websocket client messages, and
the two HTTP endpoints), a site identifier present before remains present
after, remains among the keys listed by `_api_status`, and remains a key of
the per-site object of every snapshot. -/
theorem claim_C6 (ops : List ServerOp) (st : ServerState) (sid : String)
    (h : (lookupSite st.sites sid).isSome = true) :
    (lookupSite (ops.foldl applyOp st).sites sid).isSome = true ∧
    sid ∈ (ops.foldl applyOp st).sites.map Prod.fst ∧
    (lookupField ((ops.foldl applyOp st).sites.map
        (fun p => (p.1, siteJson p.2))) sid).isSome = true := by
  have main := foldl_applyOp_isSome_mono ops st h
  refine ⟨main, (mem_keys_iff_isSome _ _).mpr main, ?_⟩
  rw [lookupField_map_siteJson]
  simpa using main

/-- C6 witness: a state knowing `S1` keeps `S1` through a `status` update
that mentions only `S2`, a `get_state` websocket request, an undecodable
datagram and a status query. -/
theorem claim_C6_witness :
    (lookupSite [("S1", SAMSiteState.init "S1")] "S1").isSome = true ∧
    (lookupSite
      ([ServerOp.dcsDatagram (some (Json.obj
          [("type", Json.str "status"),
           ("sites", Json.obj [("S2", Json.obj [])])])),
        ServerOp.wsMessage (some (Json.obj [("type", Json.str "get_state")])),
        ServerOp.dcsDatagram none,
        ServerOp.apiStatusReq].foldl applyOp
        { dcs_connected := true, mission_time := Json.num 0,
          paused := Json.bool false,
          sites := [("S1", SAMSiteState.init "S1")],
          world_objects := Json.arr [] }).sites "S1").isSome = true := by
  refine ⟨rfl, ?_⟩
  exact (claim_C6 _
    { dcs_connected := true, mission_time := Json.num 0,
      paused := Json.bool false,
      sites := [("S1", SAMSiteState.init "S1")],
      world_objects := Json.arr [] } "S1" rfl).1

/-- C1: after any sequence of updates (any prior state `st`), processing a
`status` message whose `sites` dict names `sid` with field dict `sfields`
leaves for `sid` a record that is `applySiteData` of some pre-state record
`s0` — all eleven entity fields are exactly the `get`s of that last
update's payload, independent of every earlier update — and the snapshot
taken afterwards shows for `sid` exactly those eleven field values
(`siteId` alone carries over the identifier stored at creation). -/
theorem claim_C1 (st : ServerState) (mfields sitesData : List (String × Json))
    (sid : String) (sfields : List (String × Json))
    (hty : (getField mfields "type" (Json.str "")).isStr "status" = true)
    (hsites : getField mfields "sites" (Json.obj []) = Json.obj sitesData)
    (hnodup : (sitesData.map Prod.fst).Nodup)
    (hobj : ∀ p ∈ sitesData, p.2.isObj = true)
    (hmem : (sid, Json.obj sfields) ∈ sitesData) :
    ∃ s0 : SAMSiteState,
      lookupSite (process_dcs_data st (some (Json.obj mfields))).sites sid =
        some (applySiteData s0 sfields) ∧
      lookupField
          ((process_dcs_data st (some (Json.obj mfields))).sites.map
            (fun p => (p.1, siteJson p.2))) sid =
        some (Json.obj
          [("siteId", Json.str s0.site_id),
           ("systemState", getField sfields "systemState" (Json.num 0)),
           ("radarMode", getField sfields "radarMode" (Json.num 0)),
           ("antennaAz", getField sfields "antennaAz" (Json.num 0)),
           ("antennaEl", getField sfields "antennaEl" (Json.num 5)),
           ("targets", getField sfields "targets" (Json.arr [])),
           ("tracked", getField sfields "tracked" Json.null),
           ("trackQuality", getField sfields "trackQuality" (Json.num 0)),
           ("missilesReady", getField sfields "missilesReady" (Json.num 6)),
           ("missilesInFlight", getField sfields "missilesInFlight" (Json.num 0)),
           ("engAuth", getField sfields "engAuth" (Json.bool false)),
           ("autoEng", getField sfields "autoEng" (Json.bool false))]) := by
  have hsites_eq : (process_dcs_data st (some (Json.obj mfields))).sites =
      applySitesLoop st.sites sitesData := by
    rw [process_status_eq st hty hsites]
  obtain ⟨s0, hs⟩ := applySitesLoop_lookup_mem sitesData st.sites hnodup hobj hmem
  refine ⟨s0, ?_, ?_⟩
  · rw [hsites_eq, hs]
  · rw [hsites_eq, lookupField_map_siteJson, hs]
    rfl

/-- C1 witness: a first update sets `S1.systemState = 9`,
`S1.missilesReady = 1`; the second update carries only
`{"systemState": 2}` — the resulting record and its snapshot entry show
`systemState 2` and defaults everywhere else, with no trace of `9` or `1`. -/
theorem claim_C1_witness :
    ∃ s0 : SAMSiteState,
      lookupSite (process_dcs_data
          (process_dcs_data initialState (some (Json.obj
            [("type", Json.str "status"),
             ("sites", Json.obj [("S1", Json.obj
                [("systemState", Json.num 9), ("missilesReady", Json.num 1)])])])))
          (some (Json.obj
            [("type", Json.str "status"),
             ("sites", Json.obj [("S1", Json.obj
                [("systemState", Json.num 2)])])]))).sites "S1" =
        some (applySiteData s0 [("systemState", Json.num 2)]) ∧
      lookupField
          ((process_dcs_data
            (process_dcs_data initialState (some (Json.obj
              [("type", Json.str "status"),
               ("sites", Json.obj [("S1", Json.obj
                  [("systemState", Json.num 9), ("missilesReady", Json.num 1)])])])))
            (some (Json.obj
              [("type", Json.str "status"),
               ("sites", Json.obj [("S1", Json.obj
                  [("systemState", Json.num 2)])])]))).sites.map
            (fun p => (p.1, siteJson p.2))) "S1" =
        some (Json.obj
          [("siteId", Json.str s0.site_id),
           ("systemState", Json.num 2),
           ("radarMode", Json.num 0),
           ("antennaAz", Json.num 0),
           ("antennaEl", Json.num 5),
           ("targets", Json.arr []),
           ("tracked", Json.null),
           ("trackQuality", Json.num 0),
           ("missilesReady", Json.num 6),
           ("missilesInFlight", Json.num 0),
           ("engAuth", Json.bool false),
           ("autoEng", Json.bool false)]) :=
  claim_C1
    (process_dcs_data initialState (some (Json.obj
      [("type", Json.str "status"),
       ("sites", Json.obj [("S1", Json.obj
          [("systemState", Json.num 9), ("missilesReady", Json.num 1)])])])))
    [("type", Json.str "status"),
     ("sites", Json.obj [("S1", Json.obj [("systemState", Json.num 2)])])]
    [("S1", Json.obj [("systemState", Json.num 2)])]
    "S1" [("systemState", Json.num 2)]
    rfl rfl (by decide) (by decide) (List.mem_singleton.mpr rfl)

/-- C10: for every `status` update and every site named in it, each of the
eleven fields whose key is omitted from that site's payload is reset to its
fixed default — `systemState 0`, `radarMode 0`, `antennaAz 0`,
`antennaEl 5`, `targets []`, `tracked null`, `trackQuality 0`,
`missilesReady 6`, `missilesInFlight 0`, `engAuth false`,
`autoEng false` — regardless of the field's previous value in an existing
record. -/
theorem claim_C10 (st : ServerState) (mfields sitesData : List (String × Json))
    (sid : String) (sfields : List (String × Json))
    (hty : (getField mfields "type" (Json.str "")).isStr "status" = true)
    (hsites : getField mfields "sites" (Json.obj []) = Json.obj sitesData)
    (hnodup : (sitesData.map Prod.fst).Nodup)
    (hobj : ∀ p ∈ sitesData, p.2.isObj = true)
    (hmem : (sid, Json.obj sfields) ∈ sitesData) :
    ∃ site : SAMSiteState,
      lookupSite (process_dcs_data st (some (Json.obj mfields))).sites sid =
        some site ∧
      (lookupField sfields "systemState" = none → site.system_state = Json.num 0) ∧
      (lookupField sfields "radarMode" = none → site.radar_mode = Json.num 0) ∧
      (lookupField sfields "antennaAz" = none → site.antenna_az = Json.num 0) ∧
      (lookupField sfields "antennaEl" = none → site.antenna_el = Json.num 5) ∧
      (lookupField sfields "targets" = none → site.targets = Json.arr []) ∧
      (lookupField sfields "tracked" = none → site.tracked_target = Json.null) ∧
      (lookupField sfields "trackQuality" = none → site.track_quality = Json.num 0) ∧
      (lookupField sfields "missilesReady" = none → site.missiles_ready = Json.num 6) ∧
      (lookupField sfields "missilesInFlight" = none → site.missiles_in_flight = Json.num 0) ∧
      (lookupField sfields "engAuth" = none → site.engagement_auth = Json.bool false) ∧
      (lookupField sfields "autoEng" = none → site.auto_engage = Json.bool false) := by
  have hsites_eq : (process_dcs_data st (some (Json.obj mfields))).sites =
      applySitesLoop st.sites sitesData := by
    rw [process_status_eq st hty hsites]
  obtain ⟨s0, hs⟩ := applySitesLoop_lookup_mem sitesData st.sites hnodup hobj hmem
  refine ⟨applySiteData s0 sfields, by rw [hsites_eq, hs],
    ?_, ?_, ?_, ?_, ?_, ?_, ?_, ?_, ?_, ?_, ?_⟩
  all_goals intro hn
  all_goals simp [applySiteData, getField, hn]

/-- C10 witness: after a first update setting every field of `S1` to a
non-default value, an update carrying `{"S1": {}}` resets all eleven
fields to their defaults. -/
theorem claim_C10_witness :
    ∃ site : SAMSiteState,
      lookupSite (process_dcs_data
          (process_dcs_data initialState (some (Json.obj
            [("type", Json.str "status"),
             ("sites", Json.obj [("S1", Json.obj
                [("systemState", Json.num 9), ("radarMode", Json.num 9),
                 ("antennaAz", Json.num 9), ("antennaEl", Json.num 9),
                 ("targets", Json.arr [Json.num 9]), ("tracked", Json.obj []),
                 ("trackQuality", Json.num 9), ("missilesReady", Json.num 9),
                 ("missilesInFlight", Json.num 9), ("engAuth", Json.bool true),
                 ("autoEng", Json.bool true)])])])))
          (some (Json.obj
            [("type", Json.str "status"),
             ("sites", Json.obj [("S1", Json.obj [])])]))).sites "S1" =
        some site ∧
      site.system_state = Json.num 0 ∧
      site.radar_mode = Json.num 0 ∧
      site.antenna_az = Json.num 0 ∧
      site.antenna_el = Json.num 5 ∧
      site.targets = Json.arr [] ∧
      site.tracked_target = Json.null ∧
      site.track_quality = Json.num 0 ∧
      site.missiles_ready = Json.num 6 ∧
      site.missiles_in_flight = Json.num 0 ∧
      site.engagement_auth = Json.bool false ∧
      site.auto_engage = Json.bool false := by
  obtain ⟨site, h0, h1, h2, h3, h4, h5, h6, h7, h8, h9, h10, h11⟩ :=
    claim_C10
      (process_dcs_data initialState (some (Json.obj
        [("type", Json.str "status"),
         ("sites", Json.obj [("S1", Json.obj
            [("systemState", Json.num 9), ("radarMode", Json.num 9),
             ("antennaAz", Json.num 9), ("antennaEl", Json.num 9),
             ("targets", Json.arr [Json.num 9]), ("tracked", Json.obj []),
             ("trackQuality", Json.num 9), ("missilesReady", Json.num 9),
             ("missilesInFlight", Json.num 9), ("engAuth", Json.bool true),
             ("autoEng", Json.bool true)])])])))
      [("type", Json.str "status"), ("sites", Json.obj [("S1", Json.obj [])])]
      [("S1", Json.obj [])] "S1" []
      rfl rfl (by decide) (by decide) (List.mem_singleton.mpr rfl)
  exact ⟨site, h0, h1 rfl, h2 rfl, h3 rfl, h4 rfl, h5 rfl, h6 rfl,
    h7 rfl, h8 rfl, h9 rfl, h10 rfl, h11 rfl⟩
